import Mathlib

/-!
# Verification of the frontend-cli-pure creation core

A shallow embedding of the repository's creation orchestrator
(`lib/core/creator.js`) and package-manager adapter
(`lib/utils/PackageManager.js`), with theorems settling the spec claims.

JavaScript values that flow through the code (presets, configuration files,
package.json contents) are modelled by the `JValue` inductive; JS objects are
association lists in insertion order, and JS `undefined` is `JValue.jsUndefined`.
External effects (filesystem reads, interactive prompts, child processes) are
passed in explicitly through `RunEnv`, which records the outcome each external
collaborator would produce; the definitions then mirror the source's control
flow over those outcomes.
-/

set_option autoImplicit false

/-- A JavaScript value as it appears in the CLI's data flow: JSON data plus
`undefined` (the result of a missing object property). -/
inductive JValue where
  | jsUndefined : JValue
  | jnull : JValue
  | jbool : Bool → JValue
  | jstr : String → JValue
  | jnum : Int → JValue
  | jobj : List (String × JValue) → JValue
  deriving Repr

/-- Association-list lookup with string keys, mirroring JS property access
`obj[key]` on objects whose own insertion order we track. -/
def alookup {α : Type} : List (String × α) → String → Option α
  | [], _ => none
  | (k, v) :: rest, key => if k = key then some v else alookup rest key

/-- JS property access `obj.k`: `undefined` on a missing key or a non-object.
Also models optional chaining `obj?.k`, which the source only applies where
`obj` is an object or `undefined`. -/
def JValue.getField : JValue → String → JValue
  | .jobj fields, k =>
    match alookup fields k with
    | some v => v
    | none => .jsUndefined
  | _, _ => .jsUndefined

/-- JavaScript truthiness of a `JValue`. -/
def JValue.truthy : JValue → Bool
  | .jsUndefined => false
  | .jnull => false
  | .jbool b => b
  | .jstr s => s ≠ ""
  | .jnum n => n ≠ 0
  | .jobj _ => true

/-- The fields of a JS object, `[]` for any non-object (models the source's
`x.presets || {}` guard followed by property access). -/
def JValue.objFields : JValue → List (String × JValue)
  | .jobj fields => fields
  | _ => []

/-- `if (obj[k]) { ... obj[k] ... }`: the value at `k` when it is present and
truthy, otherwise `none`. -/
def lookupTruthy (fields : List (String × JValue)) (k : String) : Option JValue :=
  match alookup fields k with
  | some v => if v.truthy then some v else none
  | none => none

/-- JS property assignment `obj[k] = v`: replaces the value at an existing key
in place, otherwise appends the new key at the end (JS insertion order). -/
def objSet : List (String × JValue) → String → JValue → List (String × JValue)
  | [], k, v => [(k, v)]
  | kv :: rest, k, v => if kv.1 = k then (k, v) :: rest else kv :: objSet rest k v

/-- `v || d` for a string-valued JS expression whose consumers only ever use
string keys: a truthy string stands for itself, and every falsy value falls
back to `d`.  (A truthy non-string value would be an unknown key to every
downstream lookup, which falls back to the same default the `||` does, so
collapsing it onto `d` is observationally equal.) -/
def jsOrString (v : JValue) (d : String) : String :=
  match v with
  | .jstr s => if s = "" then d else s
  | _ => d

/-- The error taxonomy of the creation core (spec §7), as produced by the
source's `throw`/`reject` sites. -/
inductive CreationError where
  /-- `runCommand`: `findExecutable` returned `null` for `command`. -/
  | executableNotFound (command : String) : CreationError
  /-- `runCommand`: the child exited non-zero; carries the exit code and the
  captured `stderr || stdout` (empty when output was inherited). -/
  | commandFailed (exitCode : Nat) (output : String) : CreationError
  /-- a completion hook threw. -/
  | hookFailed : CreationError
  /-- `loadPreset`: the name is in neither the built-in registry nor the
  persisted configuration file. -/
  | presetNotFound (name : String) : CreationError
  /-- `validateTargetDirectory`: the user chose `cancel`. -/
  | userCancelled : CreationError
  /-- `JSON.parse(cliOptions.inlinePreset)` threw. -/
  | invalidInlinePreset : CreationError
  deriving Repr, DecidableEq

/-- Exit code and streams of a completed child process, as observed by
`runCommand`'s `close` handler. -/
structure ProcessResult where
  exitCode : Nat
  stdout : String
  stderr : String
  deriving Repr, DecidableEq

/-! ## PackageManager (`lib/utils/PackageManager.js`) -/

/-- One per-variant record of `getManagerConfig`'s `configs` table. -/
structure ManagerConfig where
  command : String
  install : List String
  installDev : List String
  uninstall : List String
  update : List String
  lockFile : String
  commandArgs : List (String × List String)
  deriving Repr, DecidableEq

/-- The constructor's default registry (`options.registry || ...`). -/
def defaultRegistry : String := "https://registry.npmjs.org/"

/-- `PackageManager.getManagerConfig`: the static per-variant table, with
`configs[this.packageManager] || configs.npm` as the fallback. -/
def PackageManager.getManagerConfig (packageManager registry : String) : ManagerConfig :=
  let npm : ManagerConfig :=
    { command := "npm"
      install := ["install"]
      installDev := ["install", "--save-dev"]
      uninstall := ["uninstall"]
      update := ["update"]
      lockFile := "package-lock.json"
      commandArgs :=
        [ ("install", ["--registry", registry])
        , ("installDev", ["--save-dev", "--registry", registry])
        , ("global", ["--global"])
        , ("production", ["--production"])
        , ("force", ["--force"])
        , ("optional", ["--optional"])
        , ("noOptional", ["--no-optional"])
        , ("dryRun", ["--dry-run"]) ] }
  let yarn : ManagerConfig :=
    { command := "yarn"
      install := []
      installDev := ["add", "--dev"]
      uninstall := ["remove"]
      update := ["upgrade"]
      lockFile := "yarn.lock"
      commandArgs :=
        [ ("install", ["--registry=" ++ registry])
        , ("installDev", ["--dev", "--registry=" ++ registry])
        , ("global", ["global"])
        , ("production", ["--production"])
        , ("force", ["--force"])
        , ("optional", ["--optional"])
        , ("noOptional", ["--ignore-optional"])
        , ("dryRun", ["--dry-run"]) ] }
  let pnpm : ManagerConfig :=
    { command := "pnpm"
      install := ["install"]
      installDev := ["add", "--save-dev"]
      uninstall := ["remove"]
      update := ["update"]
      lockFile := "pnpm-lock.yaml"
      commandArgs :=
        [ ("install", ["--registry", registry])
        , ("installDev", ["--save-dev", "--registry", registry])
        , ("global", ["--global"])
        , ("production", ["--production"])
        , ("force", ["--force"])
        , ("optional", ["--optional"])
        , ("noOptional", ["--no-optional"])
        , ("dryRun", ["--dry-run"]) ] }
  if packageManager = "npm" then npm
  else if packageManager = "yarn" then yarn
  else if packageManager = "pnpm" then pnpm
  else npm

/-- `PackageManager.getCommandArgs`: walk the option object's keys in
insertion order and append the fragment of each option that is truthy and has
an entry in the variant's `commandArgs` table. -/
def PackageManager.getCommandArgs (cfg : ManagerConfig) (options : List (String × Bool)) : List String :=
  options.foldl
    (fun args kv =>
      if kv.2 then
        match alookup cfg.commandArgs kv.1 with
        | some fragment => args ++ fragment
        | none => args
      else args)
    []

/-- The argument vector built by `PackageManager.installAll`. -/
def PackageManager.installAllArgs (cfg : ManagerConfig) (production force : Bool) : List String :=
  cfg.install ++ PackageManager.getCommandArgs cfg [("production", production), ("force", force)]

/-- The argument vector built by `PackageManager.installPackages`. -/
def PackageManager.installPackagesArgs (cfg : ManagerConfig) (packages : List String)
    (dev global force : Bool) : List String :=
  (if dev then cfg.installDev else cfg.install)
    ++ packages
    ++ PackageManager.getCommandArgs cfg [("global", global), ("force", force)]

/-- The argument vector built by `PackageManager.update`: the update template
alone for an empty package list, the template followed by the packages
otherwise. -/
def PackageManager.updateArgs (cfg : ManagerConfig) (packages : List String) : List String :=
  if packages.length > 0 then cfg.update ++ packages else cfg.update

/-- `PackageManager.runCommand`: rejects with `executableNotFound` when
`findExecutable` found nothing (`exe = none`); otherwise reports the child's
outcome — `stdout.trim()` on exit code `0`, `commandFailed` carrying the exit
code and `stderr || stdout` otherwise.  Streams are captured only when
`capture` is set; with inherited stdio both buffers stay empty. -/
def PackageManager.runCommand (command : String) (exe : Option String) (capture : Bool)
    (res : ProcessResult) : Except CreationError String :=
  match exe with
  | none => .error (.executableNotFound command)
  | some _ =>
    let output := if capture then res.stdout else ""
    let err := if capture then res.stderr else ""
    if res.exitCode = 0 then .ok output.trim
    else .error (.commandFailed res.exitCode (if err ≠ "" then err else output))

/-! ## Creator (`lib/core/creator.js`) -/

/-- One entry of the `promptModules` array handed to the `Creator`
constructor (consumed by `collectFeatureSelections`/`featuresToPlugins`). -/
structure PromptModule where
  type : String
  name : String
  value : String
  plugin : Option String
  pluginOptions : JValue
  checked : Bool
  deriving Repr

/-- The commander options object reaching `Creator.create` as `cliOptions`.
String-valued options are `none` when the flag was absent; `git` is
`some false` exactly when `--no-git` was given (the source tests
`cliOptions.git === false`). -/
structure CliOptions where
  preset : Option String := none
  inlinePreset : Option String := none
  default : Bool := false
  git : Option Bool := none
  force : Bool := false
  merge : Bool := false
  deriving Repr

/-- JS truthiness of an optional string option (absent or empty is falsy). -/
def jsTruthyOptStr : Option String → Bool
  | none => false
  | some s => s ≠ ""

/-- The `Creator` instance state fixed by its constructor: the project name
and the registered prompt modules and completion callbacks (for the
callbacks, only whether each one resolves matters here). -/
structure Creator where
  name : String
  promptModules : List PromptModule
  afterInvokeOk : List Bool
  afterAnyInvokeOk : List Bool
  deriving Repr

/-- The outcome every external collaborator would produce during one creation
run: filesystem probes, interactive answers, the inline-JSON parse, the
dependency-install child process, the wall clock, and the version-control
tool. -/
structure RunEnv where
  /-- `fs.pathExists(targetDir)` in `validateTargetDirectory`. -/
  targetExists : Bool
  /-- the `promptDirectoryAction` answer (`overwrite` / `merge` / `cancel`). -/
  promptAction : String
  /-- contents of the `.frontendrc.json` read by `loadPreset`, when the file
  exists. -/
  configFile : Option JValue
  /-- outcome of `JSON.parse(cliOptions.inlinePreset)`. -/
  inlineParsed : Except CreationError JValue
  /-- the preset chosen in `interactivePresetSelection` (a registry key or
  `__manual__`). -/
  interactiveChoice : String
  /-- the features ticked in `collectFeatureSelections`. -/
  features : List String
  /-- the manager picked in `collectAdditionalOptions`. -/
  packageManagerChoice : String
  /-- names of the files the (out-of-scope) file-generation collaborator
  writes. -/
  generatedFiles : List String
  /-- `findExecutable` result for the package-manager command. -/
  installExe : Option String
  /-- exit code and streams of the dependency-install child process. -/
  installProc : ProcessResult
  /-- `new Date().toISOString()` at `saveConfiguration` time. -/
  created : String
  /-- whether the `git init`/`add`/`commit` sequence succeeds. -/
  gitOk : Bool
  deriving Repr

/-- A filesystem mutation issued against the target directory during a run. -/
inductive FsAction where
  /-- `fs.remove(targetDir)` -/
  | removeTarget : FsAction
  /-- `fs.ensureDir(this.context)` -/
  | ensureTargetDir : FsAction
  /-- `fileSystem.writeFile(path.join(this.context, name), content)` -/
  | writeFile (name : String) (content : JValue) : FsAction
  deriving Repr

/-- Whether a filesystem action removes the target tree. -/
def FsAction.isRemove : FsAction → Bool
  | .removeTarget => true
  | _ => false

/-- What one `Creator.create` run observably did: the `creation` events in
emission order, the filesystem mutations in issue order, and the error it
rethrew (if any). -/
structure RunResult where
  events : List String
  fs : List FsAction
  err : Option CreationError
  deriving Repr

/-- `Creator.getAvailablePresets`: the static built-in registry. -/
def Creator.getAvailablePresets : List (String × JValue) :=
  [("Vue基础项目",
    .jobj [("name", .jstr "vue-basic"), ("description", .jstr "Vue3 + JavaScript + ESLint")])]

/-- `Creator.getDefaultPreset`: the `Vue基础项目` entry of the registry. -/
def Creator.getDefaultPreset : JValue :=
  match alookup Creator.getAvailablePresets "Vue基础项目" with
  | some p => p
  | none => .jsUndefined

/-- `Creator.loadPreset`: the built-in registry first (`if (presets[name])`),
then the `presets` property of the persisted `.frontendrc.json`
(`(readJson(configPath)).presets || {}`), else `PresetNotFound`. -/
def Creator.loadPreset (presetName : String) (configFile : Option JValue) :
    Except CreationError JValue :=
  match lookupTruthy Creator.getAvailablePresets presetName with
  | some p => .ok p
  | none =>
    match configFile with
    | some cfg =>
      match lookupTruthy (cfg.getField "presets").objFields presetName with
      | some p => .ok p
      | none => .error (.presetNotFound presetName)
    | none => .error (.presetNotFound presetName)

/-- The JSON object `Creator.saveConfiguration` writes to
`.frontendrc.json` in the project root. -/
def Creator.saveConfiguration (preset : JValue) (name created : String) : JValue :=
  .jobj [("preset", preset), ("name", .jstr name), ("created", .jstr created)]

/-- The `package.json` object built by `Creator.initializePackageJson`. -/
def Creator.initializePackageJson (name : String) : JValue :=
  .jobj
    [ ("name", .jstr name)
    , ("version", .jstr "0.1.0")
    , ("description", .jstr ("Frontend project: " ++ name))
    , ("private", .jbool true)
    , ("scripts", .jobj
        [ ("start", .jstr "npm run dev")
        , ("dev", .jstr "webpack serve --mode development")
        , ("build", .jstr "webpack --mode production")
        , ("test", .jstr "jest")
        , ("lint", .jstr "eslint src --ext .js,.jsx,.ts,.tsx") ])
    , ("devDependencies", .jobj [])
    , ("dependencies", .jobj []) ]

/-- The `forEach` body of `Creator.featuresToPlugins`: look the feature up in
`promptModules` and, when the module exists and names a truthy plugin, assign
`plugins[module.plugin] = module.pluginOptions || {}`. -/
def Creator.featuresToPluginsStep (promptModules : List PromptModule)
    (plugins : List (String × JValue)) (feature : String) : List (String × JValue) :=
  match promptModules.find? (fun m => m.value = feature) with
  | some m =>
    match m.plugin with
    | some pl =>
      if pl = "" then plugins
      else objSet plugins pl (if m.pluginOptions.truthy then m.pluginOptions else .jobj [])
    | none => plugins
  | none => plugins

/-- `Creator.featuresToPlugins`: start from the base plugin object containing
`@frontend-cli/core` and fold the selected features over it. -/
def Creator.featuresToPlugins (promptModules : List PromptModule)
    (features : List String) : List (String × JValue) :=
  features.foldl (Creator.featuresToPluginsStep promptModules)
    [("@frontend-cli/core", .jobj [])]

/-- `Creator.manualConfiguration`: the literal base preset, then
`preset.plugins = featuresToPlugins(features)`, then
`Object.assign(preset, { packageManager })` — which installs the chosen
manager as a top-level key of the preset object. -/
def Creator.manualConfiguration (promptModules : List PromptModule)
    (features : List String) (packageManager : String) : JValue :=
  let base :=
    [ ("name", JValue.jstr "manual")
    , ("description", JValue.jstr "手动配置")
    , ("useConfigFiles", JValue.jbool false)
    , ("plugins", JValue.jobj [])
    , ("options", JValue.jobj []) ]
  let withPlugins := objSet base "plugins" (.jobj (Creator.featuresToPlugins promptModules features))
  .jobj (objSet withPlugins "packageManager" (.jstr packageManager))

/-- `Creator.interactivePresetSelection`: `__manual__` delegates to
`manualConfiguration`, any other answer indexes the registry (inquirer only
offers registry keys, but a missing key would yield `undefined` like JS). -/
def Creator.interactivePresetSelection (promptModules : List PromptModule)
    (choice : String) (features : List String) (packageManager : String) : JValue :=
  if choice = "__manual__" then
    Creator.manualConfiguration promptModules features packageManager
  else
    match alookup Creator.getAvailablePresets choice with
    | some p => p
    | none => .jsUndefined

/-- `Creator.resolvePreset`: the priority chain
`cliOptions.preset` > `cliOptions.inlinePreset` > `cliOptions.default` >
interactive selection, each guard being JS truthiness of the option. -/
def Creator.resolvePreset (c : Creator) (opts : CliOptions) (env : RunEnv) :
    Except CreationError JValue :=
  if jsTruthyOptStr opts.preset then
    Creator.loadPreset (opts.preset.getD "") env.configFile
  else if jsTruthyOptStr opts.inlinePreset then
    env.inlineParsed
  else if opts.default then
    .ok Creator.getDefaultPreset
  else
    .ok (Creator.interactivePresetSelection c.promptModules env.interactiveChoice
      env.features env.packageManagerChoice)

/-- `Creator.validateTargetDirectory`: on an existing target, `force` removes
the tree, `merge` proceeds untouched, and otherwise the interactive choice
decides (`cancel` throws, `overwrite` removes, `merge` proceeds). -/
def Creator.validateTargetDirectory (opts : CliOptions) (env : RunEnv) :
    List FsAction × Option CreationError :=
  if env.targetExists then
    if opts.force then ([.removeTarget], none)
    else if opts.merge then ([], none)
    else
      if env.promptAction = "cancel" then ([], some .userCancelled)
      else if env.promptAction = "overwrite" then ([.removeTarget], none)
      else ([], none)
  else ([], none)

/-- `Creator.initializeProject`: emit `project-init`, ensure the target
directory, write `package.json`, write the `.frontendrc.json` metadata. -/
def Creator.initializeProject (c : Creator) (preset : JValue) (created : String) :
    List String × List FsAction :=
  (["project-init"],
   [ .ensureTargetDir
   , .writeFile "package.json" (Creator.initializePackageJson c.name)
   , .writeFile ".frontendrc.json" (Creator.saveConfiguration preset c.name created) ])

/-- Modelled from the spec: `Creator.generateProjectFiles` is invoked as step
4 of `Creator.create` and its `generate-files` event is handled by
`setupCreatorEventListeners`, but the method body is absent from the
repository (the changelog lists it as still to be implemented).  Spec §4.1
rule 4: emit `generate-files` and delegate to the out-of-scope file-generation
collaborator, which writes template files into the target. -/
def Creator.generateProjectFiles (env : RunEnv) : List String × List FsAction :=
  (["generate-files"], env.generatedFiles.map (fun n => FsAction.writeFile n .jsUndefined))

/-- `Creator.installDependencies`: emit `deps-install`, build a
`PackageManager` for `preset.options?.packageManager || 'npm'` and run its
all-dependencies install (`install()` with no packages → `installAll({})`)
with inherited stdio. -/
def Creator.installDependencies (preset : JValue) (env : RunEnv) :
    List String × Option CreationError :=
  let cfg := PackageManager.getManagerConfig
    (jsOrString ((preset.getField "options").getField "packageManager") "npm")
    defaultRegistry
  (["deps-install"],
   match PackageManager.runCommand cfg.command env.installExe false env.installProc with
   | .ok _ => none
   | .error e => some e)

/-- `Creator.runCompletionHooks`: emit `completion-hooks`, then await the
`afterInvokeCbs` and `afterAnyInvokeCbs` in order; the first rejection
aborts the run. -/
def Creator.runCompletionHooks (c : Creator) : List String × Option CreationError :=
  (["completion-hooks"],
   if (c.afterInvokeOk ++ c.afterAnyInvokeOk).all (fun ok => ok) then none
   else some .hookFailed)

/-- `Creator.initializeGit`: return silently when `cliOptions.git === false`;
otherwise emit `git-init` and run `git init`/`add`/`commit` inside a
`try`/`catch` whose `catch` only logs a warning — both outcomes succeed. -/
def Creator.initializeGit (opts : CliOptions) (gitOk : Bool) :
    List String × Option CreationError :=
  if opts.git = some false then ([], none)
  else (["git-init"], if gitOk then none else none)

/-- The preset argument handling at the top of `Creator.create`:
`if (!preset) { preset = await this.resolvePreset(cliOptions) }`. -/
def Creator.resolvePresetArg (c : Creator) (opts : CliOptions) (presetArg : Option JValue)
    (env : RunEnv) : Except CreationError JValue :=
  match presetArg with
  | some p => .ok p
  | none => Creator.resolvePreset c opts env

/-- `Creator.create`: the orchestrator.  Emits `start`, resolves the preset
(unless one was passed in), validates the target directory, then runs
project-init → generate-files → deps-install → completion-hooks → git-init in
sequence and emits `done`; the surrounding `try`/`catch` emits `error` and
rethrows on the first failure. -/
def Creator.create (c : Creator) (opts : CliOptions) (presetArg : Option JValue)
    (env : RunEnv) : RunResult :=
  match Creator.resolvePresetArg c opts presetArg env with
  | .error e => { events := ["start", "error"], fs := [], err := some e }
  | .ok preset =>
    match Creator.validateTargetDirectory opts env with
    | (vfs, some e) => { events := ["start", "error"], fs := vfs, err := some e }
    | (vfs, none) =>
      let init := Creator.initializeProject c preset env.created
      let gen := Creator.generateProjectFiles env
      let deps := Creator.installDependencies preset env
      match deps.2 with
      | some e =>
        { events := ["start"] ++ init.1 ++ gen.1 ++ deps.1 ++ ["error"]
          fs := vfs ++ init.2 ++ gen.2
          err := some e }
      | none =>
        let hooks := Creator.runCompletionHooks c
        match hooks.2 with
        | some e =>
          { events := ["start"] ++ init.1 ++ gen.1 ++ deps.1 ++ hooks.1 ++ ["error"]
            fs := vfs ++ init.2 ++ gen.2
            err := some e }
        | none =>
          let git := Creator.initializeGit opts env.gitOk
          match git.2 with
          | some e =>
            { events := ["start"] ++ init.1 ++ gen.1 ++ deps.1 ++ hooks.1 ++ git.1 ++ ["error"]
              fs := vfs ++ init.2 ++ gen.2
              err := some e }
          | none =>
            { events := ["start"] ++ init.1 ++ gen.1 ++ deps.1 ++ hooks.1 ++ git.1 ++ ["done"]
              fs := vfs ++ init.2 ++ gen.2
              err := none }

/-! ## Spec-side definitions

These two definitions follow the words of the spec (not the source); they
exist to compare the source's behavior against the spec's data model and
priority order. -/

/-- Follows the spec's words (§3, Preset): a full Preset has `name`,
`description`, a boolean `useConfigFiles`, a `plugins` mapping, and an
`options` mapping containing at least `packageManager`. -/
def specPresetShape (p : JValue) : Bool :=
  (match p.getField "name" with | .jstr _ => true | _ => false)
  && (match p.getField "description" with | .jstr _ => true | _ => false)
  && (match p.getField "useConfigFiles" with | .jbool _ => true | _ => false)
  && (match p.getField "plugins" with | .jobj _ => true | _ => false)
  && (match p.getField "options" with
      | .jobj fields => (alookup fields "packageManager").isSome
      | _ => false)

/-- The four preset sources named by the spec (§4.1 rule 1). -/
inductive PresetSource where
  | named : PresetSource
  | inlinePayload : PresetSource
  | defaultFlag : PresetSource
  | interactive : PresetSource
  deriving Repr, DecidableEq

/-- Follows the spec's words (§4.1 rule 1): the first source present in the
priority order named-preset > inline-payload > default-flag >
interactive-collection. -/
def specFirstPresetSource (opts : CliOptions) : PresetSource :=
  if jsTruthyOptStr opts.preset then .named
  else if jsTruthyOptStr opts.inlinePreset then .inlinePayload
  else if opts.default then .defaultFlag
  else .interactive

/-! ## Concrete sample values for witnesses -/

/-- A benign environment: fresh target, executable found, install succeeds. -/
def sampleEnv : RunEnv :=
  { targetExists := false
    promptAction := "merge"
    configFile := none
    inlineParsed := .error .invalidInlinePreset
    interactiveChoice := "Vue基础项目"
    features := []
    packageManagerChoice := "npm"
    generatedFiles := ["src/main.js"]
    installExe := some "/usr/local/bin/npm"
    installProc := { exitCode := 0, stdout := "", stderr := "" }
    created := "2026-01-03T00:00:00.000Z"
    gitOk := true }

/-- A creator with no prompt modules or callbacks, as built by the `create`
command (`loadPromptModules` returns `[]`). -/
def sampleCreator : Creator :=
  { name := "my-app", promptModules := [], afterInvokeOk := [], afterAnyInvokeOk := [] }

/-- A minimal inline preset object. -/
def samplePreset : JValue := .jobj []

/-- `sampleEnv` with a failing dependency-install process. -/
def failEnv : RunEnv :=
  { sampleEnv with installProc := { exitCode := 1, stdout := "", stderr := "" } }

/-! ## Helper lemmas -/

/-- `objSet` never deletes a key: a key present before an assignment is
still present afterwards. -/
theorem alookup_objSet_isSome (l : List (String × JValue)) (k : String) (v : JValue)
    (k0 : String) (h : (alookup l k0).isSome = true) :
    (alookup (objSet l k v) k0).isSome = true := by
  induction l with
  | nil => simp [alookup] at h
  | cons kv rest ih =>
    simp only [objSet]
    by_cases h1 : kv.1 = k
    · rw [if_pos h1]
      simp only [alookup] at h ⊢
      by_cases h2 : k = k0
      · simp [h2]
      · rw [if_neg h2]
        rw [h1] at h
        rwa [if_neg h2] at h
    · rw [if_neg h1]
      simp only [alookup] at h ⊢
      by_cases h2 : kv.1 = k0
      · simp [h2]
      · rw [if_neg h2] at h ⊢
        exact ih h

/-- One `featuresToPlugins` iteration never deletes a plugin key. -/
theorem alookup_featuresToPluginsStep_isSome (pms : List PromptModule)
    (plugins : List (String × JValue)) (f : String) (k0 : String)
    (h : (alookup plugins k0).isSome = true) :
    (alookup (Creator.featuresToPluginsStep pms plugins f) k0).isSome = true := by
  unfold Creator.featuresToPluginsStep
  cases pms.find? (fun m => m.value = f) with
  | none => exact h
  | some m =>
    dsimp only
    cases m.plugin with
    | none => exact h
    | some pl =>
      dsimp only
      by_cases hpl : pl = ""
      · rwa [if_pos hpl]
      · rw [if_neg hpl]
        exact alookup_objSet_isSome _ _ _ _ h

/-- Folding `featuresToPluginsStep` preserves every key of the accumulator. -/
theorem alookup_foldl_featuresToPluginsStep_isSome (pms : List PromptModule)
    (features : List String) (init : List (String × JValue)) (k0 : String)
    (h : (alookup init k0).isSome = true) :
    (alookup (features.foldl (Creator.featuresToPluginsStep pms) init) k0).isSome = true := by
  induction features generalizing init with
  | nil => exact h
  | cons f rest ih =>
    exact ih _ (alookup_featuresToPluginsStep_isSome pms init f k0 h)

/-- The base plugin `@frontend-cli/core` survives any feature selection. -/
theorem featuresToPlugins_core_isSome (pms : List PromptModule) (features : List String) :
    (alookup (Creator.featuresToPlugins pms features) "@frontend-cli/core").isSome = true :=
  alookup_foldl_featuresToPluginsStep_isSome pms features _ _ rfl

/-- `initializeGit` does not depend on whether the git commands succeed. -/
theorem initializeGit_gitOk_irrelevant (opts : CliOptions) (b b' : Bool) :
    Creator.initializeGit opts b = Creator.initializeGit opts b' := by
  unfold Creator.initializeGit
  cases b <;> cases b' <;> rfl

/-! ## Claim theorems -/

/-- **C5**: for each of npm, yarn and pnpm, `installAll({production: true})`
builds an argument vector that contains that variant's production-flag
fragment (`--production`) exactly once and never contains the variant's
dev-install subcommand tokens (`--save-dev` for npm, which shares the
`install` subcommand; `add`/`--dev` for yarn; `add`/`--save-dev` for pnpm),
for every registry setting. -/
theorem installAll_production_flags (registry : String) :
    (PackageManager.installAllArgs (PackageManager.getManagerConfig "npm" registry) true false
        = ["install", "--production"]
      ∧ (PackageManager.installAllArgs (PackageManager.getManagerConfig "npm" registry)
          true false).count "--production" = 1
      ∧ (PackageManager.installAllArgs (PackageManager.getManagerConfig "npm" registry)
          true false).contains "--save-dev" = false)
    ∧ (PackageManager.installAllArgs (PackageManager.getManagerConfig "yarn" registry) true false
        = ["--production"]
      ∧ (PackageManager.installAllArgs (PackageManager.getManagerConfig "yarn" registry)
          true false).count "--production" = 1
      ∧ (PackageManager.installAllArgs (PackageManager.getManagerConfig "yarn" registry)
          true false).contains "add" = false
      ∧ (PackageManager.installAllArgs (PackageManager.getManagerConfig "yarn" registry)
          true false).contains "--dev" = false)
    ∧ (PackageManager.installAllArgs (PackageManager.getManagerConfig "pnpm" registry) true false
        = ["install", "--production"]
      ∧ (PackageManager.installAllArgs (PackageManager.getManagerConfig "pnpm" registry)
          true false).count "--production" = 1
      ∧ (PackageManager.installAllArgs (PackageManager.getManagerConfig "pnpm" registry)
          true false).contains "add" = false
      ∧ (PackageManager.installAllArgs (PackageManager.getManagerConfig "pnpm" registry)
          true false).contains "--save-dev" = false) :=
  ⟨⟨rfl, rfl, rfl⟩, ⟨rfl, rfl, rfl, rfl⟩, ⟨rfl, rfl, rfl, rfl⟩⟩

/-- **C6**: for each variant, `installPackages(["x"], {dev: true})` builds the
variant's dev-install base arguments followed by the package name: npm reuses
the shared `install` subcommand with the `--save-dev` flag appended to it,
yarn and pnpm use their dedicated `add` dev subcommand; `"x"` appears exactly
once, after all base arguments. -/
theorem installPackages_dev_args (registry : String) :
    (PackageManager.installPackagesArgs (PackageManager.getManagerConfig "npm" registry)
        ["x"] true false false
        = (PackageManager.getManagerConfig "npm" registry).installDev ++ ["x"]
      ∧ (PackageManager.getManagerConfig "npm" registry).installDev
        = (PackageManager.getManagerConfig "npm" registry).install ++ ["--save-dev"]
      ∧ PackageManager.installPackagesArgs (PackageManager.getManagerConfig "npm" registry)
          ["x"] true false false = ["install", "--save-dev", "x"]
      ∧ (PackageManager.installPackagesArgs (PackageManager.getManagerConfig "npm" registry)
          ["x"] true false false).count "x" = 1)
    ∧ (PackageManager.installPackagesArgs (PackageManager.getManagerConfig "yarn" registry)
        ["x"] true false false
        = (PackageManager.getManagerConfig "yarn" registry).installDev ++ ["x"]
      ∧ PackageManager.installPackagesArgs (PackageManager.getManagerConfig "yarn" registry)
          ["x"] true false false = ["add", "--dev", "x"]
      ∧ (PackageManager.installPackagesArgs (PackageManager.getManagerConfig "yarn" registry)
          ["x"] true false false).count "x" = 1)
    ∧ (PackageManager.installPackagesArgs (PackageManager.getManagerConfig "pnpm" registry)
        ["x"] true false false
        = (PackageManager.getManagerConfig "pnpm" registry).installDev ++ ["x"]
      ∧ PackageManager.installPackagesArgs (PackageManager.getManagerConfig "pnpm" registry)
          ["x"] true false false = ["add", "--save-dev", "x"]
      ∧ (PackageManager.installPackagesArgs (PackageManager.getManagerConfig "pnpm" registry)
          ["x"] true false false).count "x" = 1) :=
  ⟨⟨rfl, rfl, rfl, rfl⟩, ⟨rfl, rfl, rfl⟩, ⟨rfl, rfl, rfl⟩⟩

/-- **C7**: `update` with an empty package list builds exactly the variant's
update template with nothing appended, and with a non-empty list appends the
package names after the template; the update templates of the three variants
are `update`, `upgrade`, `update`. -/
theorem update_args_template (cfg : ManagerConfig) (packages : List String) (registry : String) :
    PackageManager.updateArgs cfg [] = cfg.update
    ∧ PackageManager.updateArgs cfg packages = cfg.update ++ packages
    ∧ (PackageManager.getManagerConfig "npm" registry).update = ["update"]
    ∧ (PackageManager.getManagerConfig "yarn" registry).update = ["upgrade"]
    ∧ (PackageManager.getManagerConfig "pnpm" registry).update = ["update"] := by
  refine ⟨rfl, ?_, rfl, rfl, rfl⟩
  cases packages with
  | nil => simp [PackageManager.updateArgs]
  | cons p rest => simp [PackageManager.updateArgs]

/-- **C2** (code-bug evaluation): feeding `loadPreset` exactly the
configuration object `saveConfiguration` persists — even when the saved
project name coincides with the looked-up preset name — still fails with
`PresetNotFound`, because `saveConfiguration` writes a single `preset` key
while `loadPreset`'s fallback reads a `presets` map. -/
theorem loadPreset_saved_metadata_not_found :
    Creator.loadPreset "my-preset"
        (some (Creator.saveConfiguration
          (.jobj [("name", .jstr "manual"), ("plugins", .jobj []), ("options", .jobj [])])
          "my-preset" "2026-01-03T00:00:00.000Z"))
      = .error (.presetNotFound "my-preset") := rfl

/-- **C3** (counterexample): with the `--default` flag, preset resolution
returns the built-in default preset, which carries only `name` and
`description` — no `useConfigFiles`, no `plugins`, no `options`. -/
theorem default_preset_lacks_full_shape :
    Creator.resolvePreset sampleCreator { default := true } sampleEnv
      = .ok Creator.getDefaultPreset
    ∧ Creator.getDefaultPreset
      = .jobj [("name", .jstr "vue-basic"), ("description", .jstr "Vue3 + JavaScript + ESLint")]
    ∧ specPresetShape Creator.getDefaultPreset = false :=
  ⟨rfl, rfl, rfl⟩

/-- **C3** (amended): the built-in registry preset (also returned by the
default branch) carries only `name` and `description`; manual configuration
produces `name`, `description`, a boolean `useConfigFiles`, a `plugins`
mapping containing at least `@frontend-cli/core`, and an `options` mapping —
but the chosen package manager is assigned as a top-level `packageManager`
key and `options` stays empty, so even the manual preset lacks
`options.packageManager` and `installDependencies` falls back to npm. -/
theorem preset_shapes_by_source (pms : List PromptModule) (features : List String)
    (pm : String) :
    Creator.getDefaultPreset
      = .jobj [("name", .jstr "vue-basic"), ("description", .jstr "Vue3 + JavaScript + ESLint")]
    ∧ specPresetShape Creator.getDefaultPreset = false
    ∧ (Creator.manualConfiguration pms features pm).getField "name" = .jstr "manual"
    ∧ (Creator.manualConfiguration pms features pm).getField "useConfigFiles" = .jbool false
    ∧ (alookup ((Creator.manualConfiguration pms features pm).getField "plugins").objFields
        "@frontend-cli/core").isSome = true
    ∧ (Creator.manualConfiguration pms features pm).getField "options" = .jobj []
    ∧ (Creator.manualConfiguration pms features pm).getField "packageManager" = .jstr pm
    ∧ jsOrString (((Creator.manualConfiguration pms features pm).getField "options").getField
        "packageManager") "npm" = "npm" := by
  refine ⟨rfl, rfl, rfl, rfl, ?_, rfl, rfl, rfl⟩
  show (alookup (Creator.featuresToPlugins pms features) "@frontend-cli/core").isSome = true
  exact featuresToPlugins_core_isSome pms features

/-- **C4**: `resolvePreset` follows the spec's priority order named-preset >
inline-payload > default-flag > interactive-collection: the first present
source determines the result, and when a higher-priority source is present
the interactive environment (and, for a named preset, the inline payload) is
never consulted. -/
theorem resolvePreset_priority (c : Creator) (opts : CliOptions) (env : RunEnv) :
    (specFirstPresetSource opts = .named →
      Creator.resolvePreset c opts env
        = Creator.loadPreset (opts.preset.getD "") env.configFile)
    ∧ (specFirstPresetSource opts = .inlinePayload →
      Creator.resolvePreset c opts env = env.inlineParsed)
    ∧ (specFirstPresetSource opts = .defaultFlag →
      Creator.resolvePreset c opts env = .ok Creator.getDefaultPreset)
    ∧ (specFirstPresetSource opts = .interactive →
      Creator.resolvePreset c opts env
        = .ok (Creator.interactivePresetSelection c.promptModules env.interactiveChoice
            env.features env.packageManagerChoice))
    ∧ (specFirstPresetSource opts ≠ .interactive →
      ∀ choice fs pmc,
        Creator.resolvePreset c opts
            { env with interactiveChoice := choice, features := fs, packageManagerChoice := pmc }
          = Creator.resolvePreset c opts env)
    ∧ (specFirstPresetSource opts = .named →
      ∀ parsed choice fs pmc,
        Creator.resolvePreset c opts
            { env with inlineParsed := parsed, interactiveChoice := choice, features := fs,
                       packageManagerChoice := pmc }
          = Creator.resolvePreset c opts env) := by
  unfold specFirstPresetSource Creator.resolvePreset
  by_cases h1 : jsTruthyOptStr opts.preset
  · simp [h1]
  · by_cases h2 : jsTruthyOptStr opts.inlinePreset
    · simp [h1, h2]
    · by_cases h3 : opts.default
      · simp [h1, h2, h3]
      · simp [h1, h2, h3]

/-- C4 witness: with `--preset x` present the named lookup decides the
result, and with only `--default` present the interactive environment is
irrelevant. -/
theorem resolvePreset_priority_witness :
    Creator.resolvePreset sampleCreator { preset := some "x" } sampleEnv
      = Creator.loadPreset "x" sampleEnv.configFile
    ∧ Creator.resolvePreset sampleCreator { default := true }
        { sampleEnv with interactiveChoice := "__manual__", features := ["router"],
                         packageManagerChoice := "yarn" }
      = Creator.resolvePreset sampleCreator { default := true } sampleEnv :=
  ⟨(resolvePreset_priority sampleCreator { preset := some "x" } sampleEnv).1 rfl,
   (resolvePreset_priority sampleCreator { default := true } sampleEnv).2.2.2.2.1
     (by decide) "__manual__" ["router"] "yarn"⟩

/-- `initializeGit` never reports an error, whatever the git outcome. -/
theorem initializeGit_snd_none (opts : CliOptions) (b : Bool) :
    (Creator.initializeGit opts b).2 = none := by
  unfold Creator.initializeGit
  by_cases hg : opts.git = some false
  · rw [if_pos hg]
  · rw [if_neg hg]
    cases b <;> rfl

/-- Outcome of `create` when preset resolution fails. -/
theorem create_resolve_fail_result (c : Creator) (opts : CliOptions)
    (presetArg : Option JValue) (env : RunEnv) (e : CreationError)
    (hP : Creator.resolvePresetArg c opts presetArg env = .error e) :
    Creator.create c opts presetArg env
      = { events := ["start", "error"], fs := [], err := some e } := by
  unfold Creator.create
  simp only [hP]

/-- Outcome of `create` when directory validation throws. -/
theorem create_validate_fail_result (c : Creator) (opts : CliOptions)
    (presetArg : Option JValue) (env : RunEnv) (preset : JValue)
    (vfs : List FsAction) (e : CreationError)
    (hP : Creator.resolvePresetArg c opts presetArg env = .ok preset)
    (hV : Creator.validateTargetDirectory opts env = (vfs, some e)) :
    Creator.create c opts presetArg env
      = { events := ["start", "error"], fs := vfs, err := some e } := by
  unfold Creator.create
  simp only [hP, hV]

/-- Outcome of `create` when dependency installation fails. -/
theorem create_install_fail_result (c : Creator) (opts : CliOptions)
    (presetArg : Option JValue) (env : RunEnv) (preset : JValue)
    (vfs : List FsAction) (e : CreationError)
    (hP : Creator.resolvePresetArg c opts presetArg env = .ok preset)
    (hV : Creator.validateTargetDirectory opts env = (vfs, none))
    (hD : (Creator.installDependencies preset env).2 = some e) :
    Creator.create c opts presetArg env
      = { events := ["start", "project-init", "generate-files", "deps-install", "error"]
          fs := vfs ++ (Creator.initializeProject c preset env.created).2
              ++ (Creator.generateProjectFiles env).2
          err := some e } := by
  unfold Creator.create
  simp only [hP, hV, hD]
  simp [Creator.initializeProject, Creator.generateProjectFiles, Creator.installDependencies]

/-- Outcome of `create` when a completion hook fails. -/
theorem create_hooks_fail_result (c : Creator) (opts : CliOptions)
    (presetArg : Option JValue) (env : RunEnv) (preset : JValue)
    (vfs : List FsAction) (e : CreationError)
    (hP : Creator.resolvePresetArg c opts presetArg env = .ok preset)
    (hV : Creator.validateTargetDirectory opts env = (vfs, none))
    (hD : (Creator.installDependencies preset env).2 = none)
    (hH : (Creator.runCompletionHooks c).2 = some e) :
    Creator.create c opts presetArg env
      = { events := ["start", "project-init", "generate-files", "deps-install",
                     "completion-hooks", "error"]
          fs := vfs ++ (Creator.initializeProject c preset env.created).2
              ++ (Creator.generateProjectFiles env).2
          err := some e } := by
  unfold Creator.create
  simp only [hP, hV, hD, hH]
  simp [Creator.initializeProject, Creator.generateProjectFiles, Creator.installDependencies,
    Creator.runCompletionHooks]

/-- Outcome of `create` when every fallible step succeeds (the git step can
not fail the run). -/
theorem create_ok_result (c : Creator) (opts : CliOptions)
    (presetArg : Option JValue) (env : RunEnv) (preset : JValue)
    (vfs : List FsAction)
    (hP : Creator.resolvePresetArg c opts presetArg env = .ok preset)
    (hV : Creator.validateTargetDirectory opts env = (vfs, none))
    (hD : (Creator.installDependencies preset env).2 = none)
    (hH : (Creator.runCompletionHooks c).2 = none) :
    Creator.create c opts presetArg env
      = { events := ["start", "project-init", "generate-files", "deps-install",
                     "completion-hooks"] ++ (Creator.initializeGit opts env.gitOk).1 ++ ["done"]
          fs := vfs ++ (Creator.initializeProject c preset env.created).2
              ++ (Creator.generateProjectFiles env).2
          err := none } := by
  unfold Creator.create
  simp only [hP, hV, hD, hH, initializeGit_snd_none]
  simp [Creator.initializeProject, Creator.generateProjectFiles, Creator.installDependencies,
    Creator.runCompletionHooks]

/-- **C1**: every `create` run that completes without a fatal error emits
exactly `start, project-init, generate-files, deps-install,
completion-hooks, done` when version control is disabled
(`cliOptions.git === false`), and the same sequence with `git-init` inserted
between `completion-hooks` and `done` otherwise; no phase repeats. -/
theorem create_success_phase_sequence (c : Creator) (opts : CliOptions)
    (presetArg : Option JValue) (env : RunEnv)
    (h : (Creator.create c opts presetArg env).err = none) :
    (opts.git = some false →
      (Creator.create c opts presetArg env).events =
        ["start", "project-init", "generate-files", "deps-install", "completion-hooks",
         "done"])
    ∧ (opts.git ≠ some false →
      (Creator.create c opts presetArg env).events =
        ["start", "project-init", "generate-files", "deps-install", "completion-hooks",
         "git-init", "done"])
    ∧ (Creator.create c opts presetArg env).events.Nodup := by
  rcases hP : Creator.resolvePresetArg c opts presetArg env with e | preset
  · rw [create_resolve_fail_result c opts presetArg env e hP] at h
    simp at h
  · rcases hV : Creator.validateTargetDirectory opts env with ⟨vfs, oe⟩
    rcases oe with _ | e
    · rcases hD : (Creator.installDependencies preset env).2 with _ | e
      · rcases hH : (Creator.runCompletionHooks c).2 with _ | e
        · rw [create_ok_result c opts presetArg env preset vfs hP hV hD hH] at h ⊢
          by_cases hg : opts.git = some false
          · refine ⟨fun _ => ?_, fun hcon => absurd hg hcon, ?_⟩
            · simp [Creator.initializeGit, hg]
            · simp [Creator.initializeGit, hg]
          · refine ⟨fun hcon => absurd hcon hg, fun _ => ?_, ?_⟩
            · simp [Creator.initializeGit, hg]
            · simp [Creator.initializeGit, hg]
        · rw [create_hooks_fail_result c opts presetArg env preset vfs e hP hV hD hH] at h
          simp at h
      · rw [create_install_fail_result c opts presetArg env preset vfs e hP hV hD] at h
        simp at h
    · rw [create_validate_fail_result c opts presetArg env preset vfs e hP hV] at h
      simp at h

/-- C1 witness: a fully successful run with `--no-git` emits exactly the
six-phase sequence. -/
theorem create_success_phase_sequence_witness :
    (Creator.create sampleCreator { git := some false } (some samplePreset) sampleEnv).err = none
    ∧ (Creator.create sampleCreator { git := some false } (some samplePreset) sampleEnv).events
      = ["start", "project-init", "generate-files", "deps-install", "completion-hooks",
         "done"] :=
  ⟨rfl,
   (create_success_phase_sequence sampleCreator { git := some false } (some samplePreset)
      sampleEnv rfl).1 rfl⟩

/-- When the executable is found and the install child exits non-zero,
`installDependencies` reports `CommandFailed` with that exit code and empty
captured output (stdio is inherited). -/
theorem installDependencies_snd_fail (preset : JValue) (env : RunEnv) (x : String)
    (hx : env.installExe = some x) (hcode : env.installProc.exitCode ≠ 0) :
    (Creator.installDependencies preset env).2
      = some (.commandFailed env.installProc.exitCode "") := by
  unfold Creator.installDependencies PackageManager.runCommand
  rw [hx]
  simp [hcode]

/-- **C8**: if the dependency-install step fails (the install child exits
non-zero), no `completion-hooks`, `git-init` or `done` event is ever emitted
for that run, and whenever the run actually reached the install step
(directory validation did not throw) `create` rethrows the
`CommandFailed` error carrying that exit code — with inherited stdio no
output is captured, so the carried output is empty. -/
theorem depsInstall_failure_aborts (c : Creator) (opts : CliOptions) (p : JValue)
    (env : RunEnv) (x : String) (hx : env.installExe = some x)
    (hcode : env.installProc.exitCode ≠ 0) :
    (Creator.create c opts (some p) env).events.contains "completion-hooks" = false
    ∧ (Creator.create c opts (some p) env).events.contains "git-init" = false
    ∧ (Creator.create c opts (some p) env).events.contains "done" = false
    ∧ ((Creator.validateTargetDirectory opts env).2 = none →
        (Creator.create c opts (some p) env).err
          = some (.commandFailed env.installProc.exitCode "")) := by
  have hD := installDependencies_snd_fail p env x hx hcode
  have hP : Creator.resolvePresetArg c opts (some p) env = .ok p := rfl
  rcases hV : Creator.validateTargetDirectory opts env with ⟨vfs, oe⟩
  rcases oe with _ | e
  · rw [create_install_fail_result c opts (some p) env p vfs _ hP hV hD]
    exact ⟨rfl, rfl, rfl, fun _ => rfl⟩
  · rw [create_validate_fail_result c opts (some p) env p vfs e hP hV]
    refine ⟨rfl, rfl, rfl, fun hcon => ?_⟩
    simp at hcon

/-- C8 witness: exit code 1 aborts the run with `CommandFailed 1` and no
`completion-hooks` event. -/
theorem depsInstall_failure_aborts_witness :
    (Creator.create sampleCreator {} (some samplePreset) failEnv).events.contains
      "completion-hooks" = false
    ∧ (Creator.create sampleCreator {} (some samplePreset) failEnv).err
      = some (.commandFailed 1 "") :=
  ⟨(depsInstall_failure_aborts sampleCreator {} samplePreset failEnv "/usr/local/bin/npm" rfl
      (by decide)).1,
   (depsInstall_failure_aborts sampleCreator {} samplePreset failEnv "/usr/local/bin/npm" rfl
      (by decide)).2.2.2 rfl⟩

/-- **C9**: the version-control step is the only locally recovered failure:
with `--no-git` it is skipped without emitting `git-init`; otherwise it emits
`git-init` and, whether or not the git commands succeed, it reports no error
— and the whole run's outcome is independent of the git outcome, so the run
still reaches `done`. -/
theorem initializeGit_nonfatal (c : Creator) (opts : CliOptions)
    (presetArg : Option JValue) (env : RunEnv) (b : Bool) :
    (opts.git = some false → Creator.initializeGit opts b = ([], none))
    ∧ (opts.git ≠ some false → Creator.initializeGit opts b = (["git-init"], none))
    ∧ (Creator.initializeGit opts b).2 = none
    ∧ Creator.create c opts presetArg { env with gitOk := b }
      = Creator.create c opts presetArg env := by
  refine ⟨?_, ?_, initializeGit_snd_none opts b, ?_⟩
  · intro hg
    unfold Creator.initializeGit
    rw [if_pos hg]
  · intro hg
    unfold Creator.initializeGit
    rw [if_neg hg]
    cases b <;> rfl
  · unfold Creator.create
    dsimp only
    rw [initializeGit_gitOk_irrelevant opts b env.gitOk]
    rfl

/-- C9 witness: skipped without `git-init` under `--no-git`; emitted with no
error even when the git commands fail. -/
theorem initializeGit_nonfatal_witness :
    Creator.initializeGit { git := some false } true = ([], none)
    ∧ Creator.initializeGit {} false = (["git-init"], none) :=
  ⟨(initializeGit_nonfatal sampleCreator { git := some false } none sampleEnv true).1 rfl,
   (initializeGit_nonfatal sampleCreator {} none sampleEnv false).2.1 (by decide)⟩

/-- With merge intent and no force flag, directory validation always
proceeds without mutating anything. -/
theorem validateTargetDirectory_merge (opts : CliOptions) (env : RunEnv)
    (hforce : opts.force = false) (hmerge : opts.merge = true) :
    Creator.validateTargetDirectory opts env = ([], none) := by
  unfold Creator.validateTargetDirectory
  rw [hforce, hmerge]
  cases env.targetExists <;> simp

/-- **C10**: a creation run invoked with the merge intent (and no force
flag) against an existing target never removes any file or subtree of the
target: whatever the other step outcomes, the run's filesystem trace
contains no removal — so a second merge run over an already-created target
leaves prior files in place. -/
theorem create_merge_no_removal (c : Creator) (opts : CliOptions)
    (presetArg : Option JValue) (env : RunEnv)
    (_hexists : env.targetExists = true)
    (hforce : opts.force = false) (hmerge : opts.merge = true) :
    ((Creator.create c opts presetArg env).fs.any FsAction.isRemove) = false := by
  have hV := validateTargetDirectory_merge opts env hforce hmerge
  rcases hP : Creator.resolvePresetArg c opts presetArg env with e | preset
  · rw [create_resolve_fail_result c opts presetArg env e hP]
    rfl
  · rcases hD : (Creator.installDependencies preset env).2 with _ | e
    · rcases hH : (Creator.runCompletionHooks c).2 with _ | e
      · rw [create_ok_result c opts presetArg env preset [] hP hV hD hH]
        simp [Creator.initializeProject, Creator.generateProjectFiles, FsAction.isRemove]
      · rw [create_hooks_fail_result c opts presetArg env preset [] e hP hV hD hH]
        simp [Creator.initializeProject, Creator.generateProjectFiles, FsAction.isRemove]
    · rw [create_install_fail_result c opts presetArg env preset [] e hP hV hD]
      simp [Creator.initializeProject, Creator.generateProjectFiles, FsAction.isRemove]

/-- C10 witness: a merge run against an existing target performs no removal. -/
theorem create_merge_no_removal_witness :
    ((Creator.create sampleCreator { merge := true } (some samplePreset)
        { sampleEnv with targetExists := true }).fs.any FsAction.isRemove) = false :=
  create_merge_no_removal sampleCreator { merge := true } (some samplePreset)
    { sampleEnv with targetExists := true } rfl rfl rfl
